import Mathlib

/-!
Shallow embedding of `src/app/app.py` (Flask ingestion and alert pipeline
for the smartwheelchair telemetry server), together with theorems checking
the specification's claims against it.

Numbers carried by JSON payloads are modelled as `PyFloat`: either a finite
rational or one of the IEEE specials `nan`, `+inf`, `-inf` (Python's `json`
module accepts the literals `NaN`/`Infinity` and produces such floats).
Python runtime values that the handler manipulates are modelled by `PyVal`
(`None`, numbers, strings, booleans), and a Python exception raised by an
operation such as `abs` on a string is modelled with `Except PyErr`.
-/

/-- A Python float as produced by parsing a JSON number (or the extended
literals `NaN` / `Infinity` / `-Infinity` that Python's parser accepts):
either a finite value, modelled exactly as a rational, or an IEEE special. -/
inductive PyFloat where
  | fin (q : ℚ)
  | nan
  | pinf
  | ninf
deriving DecidableEq, Repr

/-- A JSON value as it appears in the inbound payload. -/
inductive JVal where
  | jnull
  | jnum (x : PyFloat)
  | jstr (s : String)
  | jbool (b : Bool)
deriving DecidableEq, Repr

/-- A Python runtime value held by the handler's local variables. -/
inductive PyVal where
  | none
  | num (x : PyFloat)
  | str (s : String)
  | bool (b : Bool)
deriving DecidableEq, Repr

/-- A Python exception escaping an expression: `TypeError` (e.g. `abs` of a
`str`, or comparing `str` with `int`), `ValueError` (e.g. applying the
format spec `.2f` to a `str`), or a connection-level exception from the
underlying HTTP client when the Twilio endpoint is unreachable — which is
*not* a `TwilioRestException` and therefore is not caught by
`send_whatsapp_alert`. -/
inductive PyErr where
  | typeError
  | valueError
  | connectionError
deriving DecidableEq, Repr

/-- Conversion performed by `request.get_json()` + dict access: a JSON value
becomes the corresponding Python value; JSON `null` becomes Python `None`. -/
def jToPy : JVal → PyVal
  | JVal.jnull => PyVal.none
  | JVal.jnum x => PyVal.num x
  | JVal.jstr s => PyVal.str s
  | JVal.jbool b => PyVal.bool b

/-- An inbound JSON object, as the ordered list of its key/value pairs. -/
abbrev Payload := List (String × JVal)

/-- Python-dict lookup for a JSON object: when a key occurs more than once
in the JSON text, the later occurrence wins (dict construction overwrites). -/
def lookupJ : Payload → String → Option JVal
  | [], _ => Option.none
  | (k, v) :: rest, key =>
    match lookupJ rest key with
    | Option.none => if k = key then some v else Option.none
    | some w => some w

/-- `data.get(key)`: the value at `key`, or Python `None` when absent. -/
def getv (p : Payload) (k : String) : PyVal :=
  match lookupJ p k with
  | Option.none => PyVal.none
  | some v => jToPy v

/-- `data.get(key, default)`: the value at `key`, or `default` when absent
(note: a key present with JSON `null` yields `None`, not the default). -/
def getvD (p : Payload) (k : String) (d : PyVal) : PyVal :=
  match lookupJ p k with
  | Option.none => d
  | some v => jToPy v

/-- Absolute value of a rational, written out computably. -/
def pyAbsQ (q : ℚ) : ℚ := if q < 0 then -q else q

/-- `abs` on a Python float: IEEE behaviour on the specials. -/
def pyAbsF : PyFloat → PyFloat
  | PyFloat.fin q => PyFloat.fin (pyAbsQ q)
  | PyFloat.nan => PyFloat.nan
  | PyFloat.pinf => PyFloat.pinf
  | PyFloat.ninf => PyFloat.pinf

/-- `x > c` for a Python float against a finite threshold: IEEE comparison
(`nan > c` is `False`, `+inf > c` is `True`, `-inf > c` is `False`). -/
def pyGtF (x : PyFloat) (c : ℚ) : Bool :=
  match x with
  | PyFloat.fin q => decide (q > c)
  | PyFloat.nan => false
  | PyFloat.pinf => true
  | PyFloat.ninf => false

/-- `abs(v)` on a handler value: numbers and bools succeed (Python's `bool`
is an `int` subclass), anything else raises `TypeError`. -/
def pyAbsE : PyVal → Except PyErr PyFloat
  | PyVal.num x => Except.ok (pyAbsF x)
  | PyVal.bool b => Except.ok (PyFloat.fin (if b then 1 else 0))
  | PyVal.str _ => Except.error PyErr.typeError
  | PyVal.none => Except.error PyErr.typeError

/-- `v > c` on a handler value against an integer threshold: numbers and
bools compare, anything else raises `TypeError`. -/
def pyGtE (v : PyVal) (c : ℚ) : Except PyErr Bool :=
  match v with
  | PyVal.num x => Except.ok (pyGtF x c)
  | PyVal.bool b => Except.ok (decide ((if b then (1 : ℚ) else 0) > c))
  | PyVal.str _ => Except.error PyErr.typeError
  | PyVal.none => Except.error PyErr.typeError

/-- Python truthiness, as used by `if alert_flag:` (`bool(nan)` is `True`). -/
def pyTruthy : PyVal → Bool
  | PyVal.none => false
  | PyVal.bool b => b
  | PyVal.num (PyFloat.fin q) => decide (q ≠ 0)
  | PyVal.num _ => true
  | PyVal.str s => decide (s ≠ "")

/-- Fixed-point rendering of a finite value with two decimals, as Python's
format spec `.2f` produces for values exactly representable with two
decimal digits (for such values no rounding occurs, so the binary
round-half-even of CPython agrees with this exact computation; every value
formatted in the theorems below is of this kind). -/
def formatF2 (q : ℚ) : String :=
  let sign := if q < 0 then "-" else ""
  let a : ℚ := pyAbsQ q
  let cents : ℕ := (200 * a.num.toNat + a.den) / (2 * a.den)
  sign ++ toString (cents / 100) ++ "." ++
    (if cents % 100 < 10 then "0" else "") ++ toString (cents % 100)

/-- `format(v, ".2f")` as used inside the handler's f-strings: numbers and
bools format, a string raises `ValueError`, `None` raises `TypeError`. -/
def formatE : PyVal → Except PyErr String
  | PyVal.num (PyFloat.fin q) => Except.ok (formatF2 q)
  | PyVal.num PyFloat.nan => Except.ok "nan"
  | PyVal.num PyFloat.pinf => Except.ok "inf"
  | PyVal.num PyFloat.ninf => Except.ok "-inf"
  | PyVal.bool b => Except.ok (formatF2 (if b then 1 else 0))
  | PyVal.str _ => Except.error PyErr.valueError
  | PyVal.none => Except.error PyErr.typeError

/-- Outcome of the underlying `twilio_client.messages.create` call when it
is reached: a successful send; a `TwilioRestException` (the library raises
it for non-2xx REST responses — auth failures, API errors — and it is the
only exception the handler catches); or a connection-level transport
exception (unreachable endpoint), which is not a `TwilioRestException`. -/
inductive TwilioResult where
  | ok
  | restExc
  | connError
deriving DecidableEq, Repr

/-- Environment of one request: whether the Twilio channel is fully
configured (`all([twilio_client, TWILIO_WHATSAPP_NUMBER, ALERT_PHONE_NUMBER])`),
how the `twilio_client.messages.create` call behaves if reached,
whether the database `INSERT` raises, and the formatted current time
`datetime.datetime.now().strftime("%Y-%m-%d %H:%M:%S")`. -/
structure Ctx where
  twilioConfigured : Bool
  twilio : TwilioResult
  insertFails : Bool
  now : String
deriving DecidableEq, Repr

/-- Result of one call to `send_whatsapp_alert`: the incomplete-configuration
early return, the caught-and-logged `TwilioRestException` path, or a
successful send. All three return normally. -/
inductive SendOutcome where
  | skippedConfig
  | failedLogged
  | sent
deriving DecidableEq, Repr

/-- `send_whatsapp_alert(message)` (app.py lines 29-41): skips with a warning
when the Twilio configuration is incomplete, otherwise attempts the send.
Its `except` clause catches **only** `TwilioRestException`, logging it; a
connection-level transport exception from an unreachable endpoint is not a
`TwilioRestException` and propagates to the caller. -/
def send_whatsapp_alert (ctx : Ctx) (_message : String) :
    Except PyErr SendOutcome :=
  if !ctx.twilioConfigured then Except.ok SendOutcome.skippedConfig
  else
    match ctx.twilio with
    | TwilioResult.ok => Except.ok SendOutcome.sent
    | TwilioResult.restExc => Except.ok SendOutcome.failedLogged
    | TwilioResult.connError => Except.error PyErr.connectionError

/-- The row handed to the `INSERT INTO wheelchair_data` statement
(app.py lines 92-95): note the `alert` column receives `alert_flag`,
the device-reported value. -/
structure StoredRow where
  pitch : PyVal
  roll : PyVal
  gas_level : PyVal
  uv_index : PyVal
  alert : PyVal
deriving DecidableEq, Repr

/-- The four response shapes `receive_data` can return. -/
inductive Resp where
  | noData
  | missingFields
  | dbError
  | ok
deriving DecidableEq, Repr

/-- HTTP status code of each `receive_data` response. -/
def statusOf : Resp → ℕ
  | Resp.noData => 400
  | Resp.missingFields => 400
  | Resp.dbError => 500
  | Resp.ok => 200

/-- JSON body of each `receive_data` response (the `dbError` body also
interpolates `str(e)`, elided here). -/
def bodyOf : Resp → String
  | Resp.noData => "No data provided"
  | Resp.missingFields => "Missing required sensor data"
  | Resp.dbError => "Database insertion failed"
  | Resp.ok => "Data stored successfully"

/-- Observable outcome of one `receive_data` request: the response, the row
inserted into the database (if any), the `alert_messages` list computed by
the threshold checks, and the sequence of `send_whatsapp_alert` invocations
with their results. -/
structure Outcome where
  resp : Resp
  stored : Option StoredRow
  messages : List String
  dispatched : List (String × SendOutcome)
deriving DecidableEq, Repr

/-- The threshold checks of `receive_data` (app.py lines 77-86), building
`alert_messages` in order. Mirrors Python evaluation order exactly:
`abs(pitch) > 10 or abs(roll) > 10` short-circuits on `or`; the f-string of
a triggered condition formats its operands; each comparison or format of a
non-numeric value raises. -/
def computeMessages (pitch roll gas_level uv_index : PyVal) (alert_flag : PyVal) :
    Except PyErr (List String) := do
  let ap ← pyAbsE pitch
  let tilt ←
    if pyGtF ap 10 then pure true
    else do
      let ar ← pyAbsE roll
      pure (pyGtF ar 10)
  let m1 ←
    if tilt then do
      let ps ← formatE pitch
      let rs ← formatE roll
      pure ["High Tilt: Pitch " ++ ps ++ "°, Roll " ++ rs ++ "°"]
    else pure []
  let gasHigh ← pyGtE gas_level 100
  let m2 ←
    if gasHigh then do
      let gs ← formatE gas_level
      pure ["High Gas Level: " ++ gs]
    else pure []
  let uvHigh ← pyGtE uv_index 3
  let m3 ←
    if uvHigh then do
      let us ← formatE uv_index
      pure ["High UV Index: " ++ us]
    else pure []
  let m4 := if pyTruthy alert_flag then ["ESP32 Alert Triggered"] else []
  pure (m1 ++ m2 ++ m3 ++ m4)

/-- The composed alert text of app.py line 102: the siren marker, the
formatted current time, a colon and newline, and the alert messages joined
with comma-space. -/
def composeMsg (now : String) (msgs : List String) : String :=
  "🚨 Wheelchair Alert at " ++ now ++ ":\n" ++ String.intercalate ", " msgs

/-- An uncaught Python exception escaping `receive_data` (Flask answers
500), together with the side effects already committed when it was raised:
a threshold-check exception is raised before the `INSERT`, so nothing is
stored, but a connection-level dispatch exception is raised *after* the
`INSERT` committed, and the stored row is not undone. -/
structure Crash where
  err : PyErr
  stored : Option StoredRow
  messages : List String
deriving DecidableEq, Repr

/-- Body of `receive_data` after field extraction (app.py lines 73-105):
the `None in [pitch, roll, gas_level, uv_index]` validation, the threshold
checks, the `INSERT` (storing `alert_flag` in the `alert` column), the
conditional WhatsApp dispatch, and the 200 response. A raising threshold
check aborts before the `INSERT`; a raising (uncaught) dispatch aborts after
it, leaving the row committed. -/
def handleValues (ctx : Ctx) (pitch roll gas_level uv_index alert_flag : PyVal) :
    Except Crash Outcome :=
  if pitch = PyVal.none ∨ roll = PyVal.none ∨ gas_level = PyVal.none ∨
      uv_index = PyVal.none then
    Except.ok ⟨Resp.missingFields, Option.none, [], []⟩
  else
    match computeMessages pitch roll gas_level uv_index alert_flag with
    | Except.error e => Except.error ⟨e, Option.none, []⟩
    | Except.ok msgs =>
      if ctx.insertFails then
        Except.ok ⟨Resp.dbError, Option.none, msgs, []⟩
      else
        if msgs = [] then
          Except.ok ⟨Resp.ok,
            some ⟨pitch, roll, gas_level, uv_index, alert_flag⟩, msgs, []⟩
        else
          match send_whatsapp_alert ctx (composeMsg ctx.now msgs) with
          | Except.error e =>
            Except.error ⟨e,
              some ⟨pitch, roll, gas_level, uv_index, alert_flag⟩, msgs⟩
          | Except.ok s =>
            Except.ok ⟨Resp.ok,
              some ⟨pitch, roll, gas_level, uv_index, alert_flag⟩, msgs,
              [(composeMsg ctx.now msgs, s)]⟩

/-- `receive_data` (app.py lines 60-105): the `if not data` guard (a JSON
object is falsy exactly when empty), then field extraction with
`data.get("pitch")`, `data.get("roll")`, `data.get("gasLevel")`,
`data.get("uvIndex")` and `data.get("alertFlag", False)`, then the
validated/evaluated/stored/notified pipeline. An `Except.error` models an
uncaught Python exception, which Flask turns into a 500 response. -/
def receive_data (ctx : Ctx) (data : Payload) : Except Crash Outcome :=
  if data = [] then Except.ok ⟨Resp.noData, Option.none, [], []⟩
  else
    handleValues ctx (getv data "pitch") (getv data "roll")
      (getv data "gasLevel") (getv data "uvIndex")
      (getvD data "alertFlag" (PyVal.bool false))

/-- HTTP status of the full request: an uncaught exception is Flask's 500. -/
def statusOfR : Except Crash Outcome → ℕ
  | Except.error _ => 500
  | Except.ok o => statusOf o.resp

/-- Response body of the full request (Flask's generic page for an
uncaught exception). -/
def bodyOfR : Except Crash Outcome → String
  | Except.error _ => "Internal Server Error"
  | Except.ok o => bodyOf o.resp

/-- The row persisted by the request, if any — also on the crash paths,
where it reports what was committed before the exception. -/
def storedOf : Except Crash Outcome → Option StoredRow
  | Except.error c => c.stored
  | Except.ok o => o.stored

/-- The `alert` column of the persisted row, if a row was persisted. -/
def storedAlertOf (r : Except Crash Outcome) : Option PyVal :=
  (storedOf r).map StoredRow.alert

/-- The `alert_messages` list the request computed (empty when the request
ended before the checks or raised during them). -/
def messagesOf : Except Crash Outcome → List String
  | Except.error c => c.messages
  | Except.ok o => o.messages

/-- The completed `send_whatsapp_alert` invocations of the request (a
dispatch call that raised does not produce an entry). -/
def dispatchedOf : Except Crash Outcome → List (String × SendOutcome)
  | Except.error _ => []
  | Except.ok o => o.dispatched

/-- `True` when the first character list starts with the second. -/
def leadsWith : List Char → List Char → Bool
  | _, [] => true
  | [], _ :: _ => false
  | a :: as, b :: bs => a = b && leadsWith as bs

/-- `True` when the second character list occurs inside the first. -/
def hasSub : List Char → List Char → Bool
  | [], needle => leadsWith [] needle
  | c :: cs, needle => leadsWith (c :: cs) needle || hasSub cs needle

/-- `True` when `needle` occurs as a substring of `hay`. -/
def containsStr (hay needle : String) : Bool :=
  hasSub hay.data needle.data

/-- One row of the `wheelchair_data` table as `SELECT *` returns it:
(id, pitch, roll, gas_level, uv_index, alert, timestamp). The store-assigned
`timestamp` is modelled as a natural number. -/
structure DbRow where
  id : ℕ
  pitch : PyVal
  roll : PyVal
  gas_level : PyVal
  uv_index : PyVal
  alert : PyVal
  timestamp : ℕ
deriving DecidableEq, Repr

/-- Newest-first ordering on rows: `a` precedes `b` when `a`'s store-assigned
timestamp is at least `b`'s. -/
def tsGe (a b : DbRow) : Prop := b.timestamp ≤ a.timestamp

instance : DecidableRel tsGe := fun a b => Nat.decLe b.timestamp a.timestamp

instance : IsTotal DbRow tsGe := ⟨fun a b => Nat.le_total b.timestamp a.timestamp⟩

instance : IsTrans DbRow tsGe := ⟨fun _ _ _ h₁ h₂ => Nat.le_trans h₂ h₁⟩

/-- The query `SELECT * FROM wheelchair_data ORDER BY timestamp DESC LIMIT n`:
sort the table newest-first by timestamp and take the first `n` rows. The
routes instantiate `n = 100`. -/
def latestQuery (n : ℕ) (db : List DbRow) : List DbRow :=
  (List.insertionSort tsGe db).take n

/-- `get_latest_data` (app.py lines 121-144): on a successful read, status 200
with the up-to-100 newest rows; when the query raises, the handler logs and
returns `{"data": []}` with status **500**. -/
def get_latest_data (readFails : Bool) (db : List DbRow) : ℕ × List DbRow :=
  if readFails then (500, [])
  else (200, latestQuery 100 db)

/-- `dashboard` (app.py lines 108-118): the same query, but a failed read
degrades to an empty row list and the page still renders (status 200);
the function returns the rows passed to the template. -/
def dashboard (readFails : Bool) (db : List DbRow) : List DbRow :=
  if readFails then []
  else latestQuery 100 db

/-- A request environment with Twilio configured and both external calls
succeeding. -/
def ctx0 : Ctx := ⟨true, TwilioResult.ok, false, "2025-01-01 00:00:00"⟩

/-- The spec's worked example payload:
`{pitch: 50, roll: 5, gasLevel: 10, uvIndex: 1}`. -/
def p50 : Payload :=
  [("pitch", JVal.jnum (PyFloat.fin 50)), ("roll", JVal.jnum (PyFloat.fin 5)),
   ("gasLevel", JVal.jnum (PyFloat.fin 10)), ("uvIndex", JVal.jnum (PyFloat.fin 1))]

/-- A payload exceeding the tilt, gas and UV thresholds simultaneously,
with no device self-alert. -/
def pMulti : Payload :=
  [("pitch", JVal.jnum (PyFloat.fin 50)), ("roll", JVal.jnum (PyFloat.fin 5)),
   ("gasLevel", JVal.jnum (PyFloat.fin 200)), ("uvIndex", JVal.jnum (PyFloat.fin 9))]

/-- A payload whose `pitch` is the float `NaN` (Python's JSON parser accepts
the literal `NaN`). -/
def pNaN : Payload :=
  [("pitch", JVal.jnum PyFloat.nan), ("roll", JVal.jnum (PyFloat.fin 0)),
   ("gasLevel", JVal.jnum (PyFloat.fin 0)), ("uvIndex", JVal.jnum (PyFloat.fin 0))]

/-- A payload whose `pitch` is the float `Infinity`. -/
def pInfPitch : Payload :=
  [("pitch", JVal.jnum PyFloat.pinf), ("roll", JVal.jnum (PyFloat.fin 0)),
   ("gasLevel", JVal.jnum (PyFloat.fin 0)), ("uvIndex", JVal.jnum (PyFloat.fin 0))]

/-- A payload whose `pitch` is the JSON string `"abc"`. -/
def pStrPitch : Payload :=
  [("pitch", JVal.jstr "abc"), ("roll", JVal.jnum (PyFloat.fin 0)),
   ("gasLevel", JVal.jnum (PyFloat.fin 0)), ("uvIndex", JVal.jnum (PyFloat.fin 0))]

/-- A canonical numeric payload with finite field values and an optional
explicit `alertFlag`; `Option.none` omits the key (so `data.get` falls back
to its `False` default). -/
def mkPayload (p r g u : ℚ) (flag : Option Bool) : Payload :=
  [("pitch", JVal.jnum (PyFloat.fin p)), ("roll", JVal.jnum (PyFloat.fin r)),
   ("gasLevel", JVal.jnum (PyFloat.fin g)), ("uvIndex", JVal.jnum (PyFloat.fin u))] ++
  (match flag with
   | Option.none => []
   | some b => [("alertFlag", JVal.jbool b)])

instance {e a : Type} [DecidableEq e] [DecidableEq a] : DecidableEq (Except e a) := fun x y =>
  match x, y with
  | Except.error u, Except.error v =>
    if h : u = v then isTrue (by rw [h]) else isFalse (fun hc => h (by injection hc))
  | Except.ok u, Except.ok v =>
    if h : u = v then isTrue (by rw [h]) else isFalse (fun hc => h (by injection hc))
  | Except.error _, Except.ok _ => isFalse (fun hc => Except.noConfusion hc)
  | Except.ok _, Except.error _ => isFalse (fun hc => Except.noConfusion hc)

/-- C1: the claim states the persisted `alert` field always equals the
recomputed threshold decision (true iff the triggered-conditions list is
non-empty) and is never the device flag copied through. The code contradicts
this: `receive_data` passes `alert_flag` to the `INSERT`, so on the payload
`{pitch: 50, roll: 5, gasLevel: 10, uvIndex: 1}` (no `alertFlag`, defaulting
to `False`) the stored `alert` is `false` while the recomputed decision is
true (the triggered list is non-empty and a notification is dispatched). -/
theorem C1_persisted_alert_copies_device_flag :
    storedAlertOf (receive_data ctx0 p50) = some (PyVal.bool false) ∧
    messagesOf (receive_data ctx0 p50) ≠ [] ∧
    dispatchedOf (receive_data ctx0 p50) ≠ [] := by decide

/-- C2: on the spec's worked example `{pitch: 50, roll: 5, gasLevel: 10,
uvIndex: 1}` the code does produce triggered list exactly `["High Tilt:
Pitch 50.00°, Roll 5.00°"]` and exactly one notification attempt whose
composed message mentions the pitch value (`50.00`), but — contrary to the
claim — the stored reading's alert column is `false`, not `true`, because
the `INSERT` stores the device-reported `alert_flag` (defaulted to `False`)
rather than the recomputed decision. -/
theorem C2_worked_example_behaviour :
    receive_data ctx0 p50 = Except.ok
      ⟨Resp.ok,
       some ⟨PyVal.num (PyFloat.fin 50), PyVal.num (PyFloat.fin 5),
             PyVal.num (PyFloat.fin 10), PyVal.num (PyFloat.fin 1),
             PyVal.bool false⟩,
       ["High Tilt: Pitch 50.00°, Roll 5.00°"],
       [("🚨 Wheelchair Alert at 2025-01-01 00:00:00:\nHigh Tilt: Pitch 50.00°, Roll 5.00°",
         SendOutcome.sent)]⟩ ∧
    (dispatchedOf (receive_data ctx0 p50)).length = 1 ∧
    containsStr ((dispatchedOf (receive_data ctx0 p50)).map Prod.fst).headI "50.00" = true ∧
    storedAlertOf (receive_data ctx0 p50) ≠ some (PyVal.bool true) := by decide

/-- C3: on a reading exceeding the tilt, gas and UV thresholds at once, the
evaluation examines every condition and returns one entry per triggered
condition (no short-circuiting across conditions), as the claim states; but
the claim's final conjunct — `serverAlert` true exactly when the list is
non-empty — fails on the code: the triggered list is non-empty yet the
persisted alert is `false`, because the `INSERT` stores `alert_flag`. -/
theorem C3_all_conditions_evaluated_but_alert_not_recomputed :
    messagesOf (receive_data ctx0 pMulti) =
      ["High Tilt: Pitch 50.00°, Roll 5.00°", "High Gas Level: 200.00",
       "High UV Index: 9.00"] ∧
    messagesOf (receive_data ctx0 pMulti) ≠ [] ∧
    storedAlertOf (receive_data ctx0 pMulti) = some (PyVal.bool false) := by decide

/-- C6 counterexample: the claim states that a required numeric field that
does not parse as a *finite* float (e.g. `NaN`) yields a validation failure
(client error) with no row persisted. The code performs no such check: on a
payload whose `pitch` is the float `NaN`, `receive_data` responds 200 (not a
400-class validation failure) and persists a row containing the `NaN`. -/
theorem C6_counterexample_nan_stored_with_200 :
    statusOfR (receive_data ctx0 pNaN) = 200 ∧
    statusOfR (receive_data ctx0 pNaN) ≠ 400 ∧
    storedOf (receive_data ctx0 pNaN) =
      some ⟨PyVal.num PyFloat.nan, PyVal.num (PyFloat.fin 0),
            PyVal.num (PyFloat.fin 0), PyVal.num (PyFloat.fin 0),
            PyVal.bool false⟩ := by decide

/-- C6 amended: the code performs no numeric validation at all. A `NaN`
field is accepted, evaluated under IEEE comparison semantics (`NaN` exceeds
no threshold) and stored with a 200 response; an `Infinity` pitch is
accepted, triggers the high-tilt condition and is stored with a 200
response; a non-numeric (string) pitch raises an uncaught `TypeError` inside
the threshold checks — an unhandled server error (Flask 500), not a
validation response — and no row is persisted. -/
theorem C6_amended_no_finiteness_validation :
    statusOfR (receive_data ctx0 pNaN) = 200 ∧
    storedOf (receive_data ctx0 pNaN) ≠ Option.none ∧
    messagesOf (receive_data ctx0 pNaN) = [] ∧
    statusOfR (receive_data ctx0 pInfPitch) = 200 ∧
    storedOf (receive_data ctx0 pInfPitch) ≠ Option.none ∧
    messagesOf (receive_data ctx0 pInfPitch) = ["High Tilt: Pitch inf°, Roll 0.00°"] ∧
    receive_data ctx0 pStrPitch = Except.error ⟨PyErr.typeError, Option.none, []⟩ ∧
    statusOfR (receive_data ctx0 pStrPitch) = 500 ∧
    storedOf (receive_data ctx0 pStrPitch) = Option.none := by decide

/-- C8 counterexample: the claim states that a failed read at the
latest-readings endpoint yields an empty-data *success* response, never an
error status. In the code the `except` branch of `get_latest_data` returns
`{"data": []}` with HTTP status 500 — an error-status response. -/
theorem C8_counterexample_failed_read_is_500 :
    (get_latest_data true []).1 = 500 ∧ (get_latest_data true []).1 ≠ 200 ∧
    (get_latest_data true []).2 = [] := by decide

/-- C8 amended: an empty but reachable store yields `{"data": []}` with
status 200; a failed read yields an empty data list but with status 500 at
`/api/latest`; only the dashboard route degrades a failed read to empty rows
with a successful render. -/
theorem C8_amended_read_failure_behaviour :
    get_latest_data false [] = (200, []) ∧
    (∀ db : List DbRow, get_latest_data true db = (500, [])) ∧
    (∀ db : List DbRow, dashboard true db = []) := by
  refine ⟨rfl, fun db => rfl, fun db => rfl⟩

@[simp]
theorem exceptBindOk {e a b : Type} (x : a) (f : a → Except e b) :
    (Except.ok x : Except e a) >>= f = f x := rfl

@[simp]
theorem exceptBindError {e a b : Type} (u : e) (f : a → Except e b) :
    (Except.error u : Except e a) >>= f = (Except.error u : Except e b) := rfl

@[simp]
theorem exceptPureEq {e a : Type} (x : a) :
    (pure x : Except e a) = Except.ok x := rfl

theorem pyAbsQ_eq_abs (q : ℚ) : pyAbsQ q = |q| := by
  rw [pyAbsQ]
  split
  · next h => exact (abs_of_neg h).symm
  · next h => exact (abs_of_nonneg (le_of_not_lt h)).symm

/-- Shared lemma: when any of the four required fields extracts to Python
`None` (because the key is absent or carries JSON `null`), `receive_data`
returns a 400 response with nothing stored and nothing dispatched — the
missing-data body when the whole payload is empty, the missing-field body
otherwise. -/
theorem receive_missing (ctx : Ctx) (p : Payload) (f : String)
    (hf : f = "pitch" ∨ f = "roll" ∨ f = "gasLevel" ∨ f = "uvIndex")
    (hx : getv p f = PyVal.none) :
    receive_data ctx p =
      Except.ok ⟨if p = [] then Resp.noData else Resp.missingFields,
                 Option.none, [], []⟩ := by
  by_cases hp : p = []
  · simp [receive_data, hp]
  · have hcond : getv p "pitch" = PyVal.none ∨ getv p "roll" = PyVal.none ∨
        getv p "gasLevel" = PyVal.none ∨ getv p "uvIndex" = PyVal.none := by
      rcases hf with h | h | h | h <;> subst h
      · exact Or.inl hx
      · exact Or.inr (Or.inl hx)
      · exact Or.inr (Or.inr (Or.inl hx))
      · exact Or.inr (Or.inr (Or.inr hx))
    rw [receive_data, if_neg hp, handleValues, if_pos hcond]
    simp [hp]

/-- C5: a payload from which a required numeric field (`pitch`, `roll`,
`gasLevel` or `uvIndex`) is absent is rejected with a 400-class validation
response before any storage write or notification: nothing is persisted (no
partial or zero-filled row) and the missing value is never defaulted. -/
theorem C5_missing_field_rejected_no_write (ctx : Ctx) (p : Payload) (f : String)
    (hf : f = "pitch" ∨ f = "roll" ∨ f = "gasLevel" ∨ f = "uvIndex")
    (habs : lookupJ p f = Option.none) :
    statusOfR (receive_data ctx p) = 400 ∧
    storedOf (receive_data ctx p) = Option.none ∧
    dispatchedOf (receive_data ctx p) = [] := by
  have hx : getv p f = PyVal.none := by simp [getv, habs]
  rw [receive_missing ctx p f hf hx]
  by_cases hp : p = [] <;> simp [hp, statusOfR, storedOf, dispatchedOf, statusOf]

/-- C5 witness: a concrete payload carrying only `roll`, hence missing
`pitch`, is rejected with 400 and causes no write. -/
theorem C5_missing_field_rejected_no_write_witness :
    (("pitch" : String) = "pitch" ∨ ("pitch" : String) = "roll" ∨
     ("pitch" : String) = "gasLevel" ∨ ("pitch" : String) = "uvIndex") ∧
    lookupJ [("roll", JVal.jnum (PyFloat.fin 1))] "pitch" = Option.none ∧
    (statusOfR (receive_data ctx0 [("roll", JVal.jnum (PyFloat.fin 1))]) = 400 ∧
     storedOf (receive_data ctx0 [("roll", JVal.jnum (PyFloat.fin 1))]) = Option.none ∧
     dispatchedOf (receive_data ctx0 [("roll", JVal.jnum (PyFloat.fin 1))]) = []) :=
  ⟨Or.inl rfl, by decide,
   C5_missing_field_rejected_no_write ctx0 [("roll", JVal.jnum (PyFloat.fin 1))]
     "pitch" (Or.inl rfl) (by decide)⟩

/-- C10 counterexample: the claim says a required field carrying explicit
JSON `null` and the field being absent yield *the same* 400 response. For
the payload whose only key is `pitch: null`, removing the field leaves the
empty payload, which takes the `if not data` branch: both responses are 400
with no write, but their bodies differ (`Missing required sensor data`
versus `No data provided`), so the responses are not identical and the two
cases are distinguishable at the interface. -/
theorem C10_counterexample_null_vs_absent_bodies_differ :
    statusOfR (receive_data ctx0 [("pitch", JVal.jnull)]) = 400 ∧
    statusOfR (receive_data ctx0 []) = 400 ∧
    bodyOfR (receive_data ctx0 [("pitch", JVal.jnull)]) = "Missing required sensor data" ∧
    bodyOfR (receive_data ctx0 []) = "No data provided" ∧
    bodyOfR (receive_data ctx0 [("pitch", JVal.jnull)]) ≠ bodyOfR (receive_data ctx0 []) ∧
    storedOf (receive_data ctx0 [("pitch", JVal.jnull)]) = Option.none ∧
    storedOf (receive_data ctx0 []) = Option.none := by decide

/-- C10 amended: a required field carrying explicit JSON `null` extracts to
Python `None`, exactly as an absent field does, so both are rejected with a
400 and no storage write; the response body is identical in the two cases
(`Missing required sensor data`) whenever the payload is non-empty, and only
when the `null` field was the payload's sole key does the absent variant
fall into the empty-payload branch with the different 400 body
(`No data provided`). -/
theorem C10_amended_null_handled_as_absent (ctx : Ctx) (p : Payload) (f : String)
    (hf : f = "pitch" ∨ f = "roll" ∨ f = "gasLevel" ∨ f = "uvIndex")
    (hx : getv p f = PyVal.none) :
    statusOfR (receive_data ctx p) = 400 ∧
    storedOf (receive_data ctx p) = Option.none ∧
    (p ≠ [] →
      receive_data ctx p = Except.ok ⟨Resp.missingFields, Option.none, [], []⟩) ∧
    (p = [] →
      receive_data ctx p = Except.ok ⟨Resp.noData, Option.none, [], []⟩) := by
  have h := receive_missing ctx p f hf hx
  by_cases hp : p = [] <;>
    simp [hp] at h <;>
    simp [h, hp, statusOfR, storedOf, statusOf]

/-- C10 witness: the payload `{"pitch": null, "roll": 1}` extracts `pitch`
as `None` and is rejected exactly like the absent-field case. -/
theorem C10_amended_null_handled_as_absent_witness :
    getv [("pitch", JVal.jnull), ("roll", JVal.jnum (PyFloat.fin 1))] "pitch" =
      PyVal.none ∧
    (statusOfR (receive_data ctx0
        [("pitch", JVal.jnull), ("roll", JVal.jnum (PyFloat.fin 1))]) = 400 ∧
     storedOf (receive_data ctx0
        [("pitch", JVal.jnull), ("roll", JVal.jnum (PyFloat.fin 1))]) = Option.none ∧
     ([("pitch", JVal.jnull), ("roll", JVal.jnum (PyFloat.fin 1))] ≠
        ([] : Payload) →
      receive_data ctx0 [("pitch", JVal.jnull), ("roll", JVal.jnum (PyFloat.fin 1))] =
        Except.ok ⟨Resp.missingFields, Option.none, [], []⟩) ∧
     ([("pitch", JVal.jnull), ("roll", JVal.jnum (PyFloat.fin 1))] =
        ([] : Payload) →
      receive_data ctx0 [("pitch", JVal.jnull), ("roll", JVal.jnum (PyFloat.fin 1))] =
        Except.ok ⟨Resp.noData, Option.none, [], []⟩)) :=
  ⟨by decide,
   C10_amended_null_handled_as_absent ctx0
     [("pitch", JVal.jnull), ("roll", JVal.jnum (PyFloat.fin 1))] "pitch"
     (Or.inl rfl) (by decide)⟩

/-- C4: for every canonical reading whose finite numeric fields do not
strictly exceed their thresholds (`abs(pitch) > 10`, `abs(roll) > 10`,
`gasLevel > 100`, `uvIndex > 3` — values exactly at a threshold do not
trigger, because the comparison is strict) and whose device flag is false
(absent or explicitly `false`), the request succeeds, the stored alert
column is `false`, and `send_whatsapp_alert` is never invoked. -/
theorem C4_no_threshold_no_alert_no_dispatch (ctx : Ctx) (p r g u : ℚ)
    (flag : Option Bool) (hins : ctx.insertFails = false)
    (hp : ¬ (|p| > 10)) (hr : ¬ (|r| > 10)) (hg : ¬ (g > 100)) (hu : ¬ (u > 3))
    (hflag : flag ≠ some true) :
    receive_data ctx (mkPayload p r g u flag) =
      Except.ok ⟨Resp.ok,
        some ⟨PyVal.num (PyFloat.fin p), PyVal.num (PyFloat.fin r),
              PyVal.num (PyFloat.fin g), PyVal.num (PyFloat.fin u),
              PyVal.bool false⟩, [], []⟩ := by
  have hp' : decide (pyAbsQ p > 10) = false := by
    rw [pyAbsQ_eq_abs]; exact decide_eq_false hp
  have hr' : decide (pyAbsQ r > 10) = false := by
    rw [pyAbsQ_eq_abs]; exact decide_eq_false hr
  have hg' : decide (g > (100 : ℚ)) = false := decide_eq_false hg
  have hu' : decide (u > (3 : ℚ)) = false := decide_eq_false hu
  rcases flag with _ | b
  · simp [mkPayload, receive_data, getv, getvD, lookupJ, jToPy, handleValues,
      computeMessages, pyAbsE, pyGtE, pyAbsF, pyGtF, pyTruthy, hins,
      hp', hr', hg', hu']
  · have hb : b = false := by
      cases b
      · rfl
      · exact absurd rfl hflag
    subst hb
    simp [mkPayload, receive_data, getv, getvD, lookupJ, jToPy, handleValues,
      computeMessages, pyAbsE, pyGtE, pyAbsF, pyGtF, pyTruthy, hins,
      hp', hr', hg', hu']

/-- C4 witness: values exactly at every threshold (`pitch = 10`,
`roll = -10`, `gasLevel = 100`, `uvIndex = 3`) with the flag absent do not
trigger: the request stores the row with alert `false` and dispatches
nothing — also confirming the comparisons are strict. -/
theorem C4_no_threshold_no_alert_no_dispatch_witness :
    ctx0.insertFails = false ∧
    ¬ ((|(10 : ℚ)|) > 10) ∧ ¬ ((|(-10 : ℚ)|) > 10) ∧
    ¬ ((100 : ℚ) > 100) ∧ ¬ ((3 : ℚ) > 3) ∧
    receive_data ctx0 (mkPayload 10 (-10) 100 3 Option.none) =
      Except.ok ⟨Resp.ok,
        some ⟨PyVal.num (PyFloat.fin 10), PyVal.num (PyFloat.fin (-10)),
              PyVal.num (PyFloat.fin 100), PyVal.num (PyFloat.fin 3),
              PyVal.bool false⟩, [], []⟩ :=
  ⟨rfl, by simp, by simp, by simp, by simp,
   C4_no_threshold_no_alert_no_dispatch ctx0 10 (-10) 100 3 Option.none rfl
     (by simp) (by simp) (by simp) (by simp) (by simp)⟩



/-- C9: for every store state and every bound `n`, the latest-readings query
returns at most `n` rows, ordered newest-first by the store-assigned
timestamp; the `/api/latest` route is its instance at `n = 100`. -/
theorem C9_latest_bounded_and_sorted (n : ℕ) (db : List DbRow) :
    (latestQuery n db).length ≤ n ∧
    List.Sorted tsGe (latestQuery n db) ∧
    (get_latest_data false db).2 = latestQuery 100 db := by
  refine ⟨?_, ?_, rfl⟩
  · rw [latestQuery]
    exact List.length_take_le n _
  · rw [latestQuery]
    exact List.Pairwise.sublist (List.take_sublist n _)
      (List.sorted_insertionSort tsGe db)

/-- Equation for the post-extraction pipeline when a threshold check raises:
the exception propagates before the `INSERT` (Flask 500), so nothing is
stored or dispatched. -/
theorem handleValues_error (ctx : Ctx) (v₁ v₂ v₃ v₄ v₅ : PyVal)
    (hmiss : ¬ (v₁ = PyVal.none ∨ v₂ = PyVal.none ∨ v₃ = PyVal.none ∨
      v₄ = PyVal.none))
    (e : PyErr) (hm : computeMessages v₁ v₂ v₃ v₄ v₅ = Except.error e) :
    handleValues ctx v₁ v₂ v₃ v₄ v₅ = Except.error ⟨e, Option.none, []⟩ := by
  rw [handleValues, if_neg hmiss, hm]

/-- When validation passes, the checks return normally, the `INSERT`
succeeds, and the Twilio call is skipped, succeeds, or raises only the
caught `TwilioRestException`, the request ends in the 200 success with the
row stored as given. -/
theorem handleValues_noconn (c : Bool) (t : TwilioResult) (now : String)
    (v₁ v₂ v₃ v₄ v₅ : PyVal)
    (hmiss : ¬ (v₁ = PyVal.none ∨ v₂ = PyVal.none ∨ v₃ = PyVal.none ∨
      v₄ = PyVal.none))
    (msgs : List String)
    (hm : computeMessages v₁ v₂ v₃ v₄ v₅ = Except.ok msgs)
    (hct : c = false ∨ t ≠ TwilioResult.connError) :
    ∃ d, handleValues ⟨c, t, false, now⟩ v₁ v₂ v₃ v₄ v₅ =
      Except.ok ⟨Resp.ok, some ⟨v₁, v₂, v₃, v₄, v₅⟩, msgs, d⟩ := by
  rw [handleValues, if_neg hmiss, hm]
  by_cases hmsgs : msgs = []
  · exact ⟨[], by simp [hmsgs]⟩
  · cases c
    · exact ⟨[(composeMsg now msgs, SendOutcome.skippedConfig)],
        by simp [hmsgs, send_whatsapp_alert]⟩
    · cases t
      · exact ⟨[(composeMsg now msgs, SendOutcome.sent)],
          by simp [hmsgs, send_whatsapp_alert]⟩
      · exact ⟨[(composeMsg now msgs, SendOutcome.failedLogged)],
          by simp [hmsgs, send_whatsapp_alert]⟩
      · simp at hct

/-- Whatever the Twilio call does — including the uncaught connection-level
exception — the row committed by the `INSERT` stays committed: the dispatch
step runs strictly after the insert and cannot undo it. -/
theorem handleValues_stored_all (c : Bool) (t : TwilioResult) (now : String)
    (v₁ v₂ v₃ v₄ v₅ : PyVal)
    (hmiss : ¬ (v₁ = PyVal.none ∨ v₂ = PyVal.none ∨ v₃ = PyVal.none ∨
      v₄ = PyVal.none))
    (msgs : List String)
    (hm : computeMessages v₁ v₂ v₃ v₄ v₅ = Except.ok msgs) :
    storedOf (handleValues ⟨c, t, false, now⟩ v₁ v₂ v₃ v₄ v₅) =
      some ⟨v₁, v₂, v₃, v₄, v₅⟩ := by
  rw [handleValues, if_neg hmiss, hm]
  by_cases hmsgs : msgs = []
  · simp [hmsgs, storedOf]
  · cases c <;> cases t <;> simp [hmsgs, storedOf, send_whatsapp_alert]

/-- Any normally-returning request that stored a row responded 200. -/
theorem handleValues_ok_resp (ctx : Ctx) (v₁ v₂ v₃ v₄ v₅ : PyVal) (o : Outcome)
    (h : handleValues ctx v₁ v₂ v₃ v₄ v₅ = Except.ok o)
    (hs : o.stored ≠ Option.none) : o.resp = Resp.ok := by
  rw [handleValues] at h
  split at h
  · cases h
    exact absurd rfl hs
  · split at h
    · cases h
    · split at h
      · cases h
        exact absurd rfl hs
      · split at h
        · cases h
          rfl
        · split at h
          · cases h
          · cases h
            rfl

/-- Lifting of `handleValues_ok_resp` to the whole endpoint. -/
theorem receive_ok_resp (ctx : Ctx) (p : Payload) (o : Outcome)
    (h : receive_data ctx p = Except.ok o) (hs : o.stored ≠ Option.none) :
    o.resp = Resp.ok := by
  rw [receive_data] at h
  split at h
  · cases h
    exact absurd rfl hs
  · exact handleValues_ok_resp ctx _ _ _ _ _ o h hs

/-- The stored row is invariant under every Twilio outcome, connection
failure included. -/
theorem receive_stored_eq (c : Bool) (t t' : TwilioResult) (now : String)
    (p : Payload) :
    storedOf (receive_data ⟨c, t, false, now⟩ p) =
      storedOf (receive_data ⟨c, t', false, now⟩ p) := by
  rw [receive_data, receive_data]
  by_cases hp : p = []
  · rw [if_pos hp, if_pos hp]
  · rw [if_neg hp, if_neg hp]
    by_cases hmiss : getv p "pitch" = PyVal.none ∨ getv p "roll" = PyVal.none ∨
        getv p "gasLevel" = PyVal.none ∨ getv p "uvIndex" = PyVal.none
    · rw [handleValues, if_pos hmiss, handleValues, if_pos hmiss]
    · cases hm : computeMessages (getv p "pitch") (getv p "roll")
          (getv p "gasLevel") (getv p "uvIndex")
          (getvD p "alertFlag" (PyVal.bool false)) with
      | error e =>
        rw [handleValues_error _ _ _ _ _ _ hmiss e hm,
            handleValues_error _ _ _ _ _ _ hmiss e hm]
      | ok msgs =>
        rw [handleValues_stored_all c t now _ _ _ _ _ hmiss msgs hm,
            handleValues_stored_all c t' now _ _ _ _ _ hmiss msgs hm]

/-- Response status, stored row and computed messages agree across all
Twilio environments that do not hit the uncaught connection failure. -/
theorem receive_proj_eq (c c' : Bool) (t t' : TwilioResult) (now : String)
    (p : Payload)
    (h : c = false ∨ t ≠ TwilioResult.connError)
    (h' : c' = false ∨ t' ≠ TwilioResult.connError) :
    statusOfR (receive_data ⟨c, t, false, now⟩ p) =
      statusOfR (receive_data ⟨c', t', false, now⟩ p) ∧
    storedOf (receive_data ⟨c, t, false, now⟩ p) =
      storedOf (receive_data ⟨c', t', false, now⟩ p) ∧
    messagesOf (receive_data ⟨c, t, false, now⟩ p) =
      messagesOf (receive_data ⟨c', t', false, now⟩ p) := by
  rw [receive_data, receive_data]
  by_cases hp : p = []
  · rw [if_pos hp, if_pos hp]
    exact ⟨rfl, rfl, rfl⟩
  · rw [if_neg hp, if_neg hp]
    by_cases hmiss : getv p "pitch" = PyVal.none ∨ getv p "roll" = PyVal.none ∨
        getv p "gasLevel" = PyVal.none ∨ getv p "uvIndex" = PyVal.none
    · rw [handleValues, if_pos hmiss, handleValues, if_pos hmiss]
      exact ⟨rfl, rfl, rfl⟩
    · cases hm : computeMessages (getv p "pitch") (getv p "roll")
          (getv p "gasLevel") (getv p "uvIndex")
          (getvD p "alertFlag" (PyVal.bool false)) with
      | error e =>
        rw [handleValues_error _ _ _ _ _ _ hmiss e hm,
            handleValues_error _ _ _ _ _ _ hmiss e hm]
        exact ⟨rfl, rfl, rfl⟩
      | ok msgs =>
        obtain ⟨d₁, e₁⟩ := handleValues_noconn c t now _ _ _ _ _ hmiss msgs hm h
        obtain ⟨d₂, e₂⟩ := handleValues_noconn c' t' now _ _ _ _ _ hmiss msgs hm h'
        rw [e₁, e₂]
        exact ⟨rfl, rfl, rfl⟩

/-- C7 counterexample: the claim states that for every request whose insert
succeeds, a notification-channel failure (transport or auth error) is caught
inside the dispatcher and the endpoint still responds 200. The `except`
clause of `send_whatsapp_alert` catches only `TwilioRestException`; a
connection-level transport failure (the unreachable-endpoint case) is a
different exception and propagates: on the worked-example payload with the
Twilio endpoint unreachable, the row is committed by the insert and then the
uncaught exception escapes, so Flask answers 500, not 200. -/
theorem C7_counterexample_transport_failure_500 :
    receive_data ⟨true, TwilioResult.connError, false, "2025-01-01 00:00:00"⟩ p50 =
      Except.error ⟨PyErr.connectionError,
        some ⟨PyVal.num (PyFloat.fin 50), PyVal.num (PyFloat.fin 5),
              PyVal.num (PyFloat.fin 10), PyVal.num (PyFloat.fin 1),
              PyVal.bool false⟩,
        ["High Tilt: Pitch 50.00°, Roll 5.00°"]⟩ ∧
    statusOfR (receive_data ⟨true, TwilioResult.connError, false,
      "2025-01-01 00:00:00"⟩ p50) = 500 ∧
    statusOfR (receive_data ⟨true, TwilioResult.connError, false,
      "2025-01-01 00:00:00"⟩ p50) ≠ 200 ∧
    storedOf (receive_data ⟨true, TwilioResult.connError, false,
      "2025-01-01 00:00:00"⟩ p50) ≠ Option.none := by decide

/-- C7 amended: once the storage insert succeeds, an incomplete channel
configuration or a channel failure surfacing as `TwilioRestException` (auth
and REST-API errors) is contained inside the dispatcher: response status,
stored row and computed messages are identical across all such environments,
and whenever a row was stored by a normally-returning request the response
is the 200 success. A connection-level transport failure is not contained —
the exception propagates and the endpoint answers 500 — but even then the
already-committed row is never undone: what is stored is invariant across
every Twilio outcome, connection failure included. -/
theorem C7_amended_caught_failures_contained (p : Payload) (now : String)
    (c₁ c₂ : Bool) (t₁ t₂ : TwilioResult)
    (h₁ : c₁ = false ∨ t₁ ≠ TwilioResult.connError)
    (h₂ : c₂ = false ∨ t₂ ≠ TwilioResult.connError) :
    (statusOfR (receive_data ⟨c₁, t₁, false, now⟩ p) =
       statusOfR (receive_data ⟨c₂, t₂, false, now⟩ p) ∧
     storedOf (receive_data ⟨c₁, t₁, false, now⟩ p) =
       storedOf (receive_data ⟨c₂, t₂, false, now⟩ p) ∧
     messagesOf (receive_data ⟨c₁, t₁, false, now⟩ p) =
       messagesOf (receive_data ⟨c₂, t₂, false, now⟩ p)) ∧
    (∀ o : Outcome, receive_data ⟨c₁, t₁, false, now⟩ p = Except.ok o →
       o.stored ≠ Option.none → o.resp = Resp.ok) ∧
    (∀ t : TwilioResult,
       storedOf (receive_data ⟨c₁, t, false, now⟩ p) =
         storedOf (receive_data ⟨c₁, t₁, false, now⟩ p)) := by
  refine ⟨receive_proj_eq c₁ c₂ t₁ t₂ now p h₁ h₂, ?_, ?_⟩
  · intro o h hs
    exact receive_ok_resp _ p o h hs
  · intro t
    exact receive_stored_eq c₁ t t₁ now p

/-- C7 witness: on the worked-example payload, the run whose Twilio call
raises the caught `TwilioRestException` has the same status as the healthy
run, and that status is the 200 success. -/
theorem C7_amended_caught_failures_contained_witness :
    ((true : Bool) = false ∨ TwilioResult.restExc ≠ TwilioResult.connError) ∧
    ((true : Bool) = false ∨ TwilioResult.ok ≠ TwilioResult.connError) ∧
    statusOfR (receive_data ⟨true, TwilioResult.restExc, false,
        "2025-01-01 00:00:00"⟩ p50) =
      statusOfR (receive_data ⟨true, TwilioResult.ok, false,
        "2025-01-01 00:00:00"⟩ p50) ∧
    statusOfR (receive_data ⟨true, TwilioResult.restExc, false,
        "2025-01-01 00:00:00"⟩ p50) = 200 :=
  ⟨Or.inr (by decide), Or.inr (by decide),
   (C7_amended_caught_failures_contained p50 "2025-01-01 00:00:00" true true
      TwilioResult.restExc TwilioResult.ok (Or.inr (by decide))
      (Or.inr (by decide))).1.1,
   by decide⟩
